import Mathlib

set_option maxHeartbeats 1000000

/-!
Shallow embedding of the react-native-passkey adapter layer
(PasskeyiOS.tsx and PasskeyAndroid.tsx) together with the request and
result shapes and the error classifier, which are modelled from the
specification where the corresponding TypeScript files are not among
the sources. Strings are embedded as Lean strings; the JavaScript
global character replacements become maps over the character list, and
the padding loop becomes a well-founded recursion with the same guard.
-/

/-- Character replacement performed by the two global replaces of
`PasskeyiOS.urlB64toStdB64` (dash to plus, underscore to slash): the two
character classes are disjoint, so the sequential replaces amount to one
character map. -/
def replStd (c : Char) : Char :=
  if c = '-' then '+' else if c = '_' then '/' else c

/-- Character replacement performed by the first two global replaces of
`PasskeyiOS.stdB64toUrlB64` and inline in `PasskeyAndroid.prepareRequest`
(plus to dash, slash to underscore). -/
def replUrl (c : Char) : Char :=
  if c = '+' then '-' else if c = '/' then '_' else c

/-- The padding loop of `PasskeyiOS.urlB64toStdB64`: while the length is not
a multiple of 4, append the character '=' . -/
def padLoop (s : List Char) : List Char :=
  if _h : s.length % 4 = 0 then s else padLoop (s ++ ['='])
termination_by (4 - s.length % 4) % 4
decreasing_by
  simp only [List.length_append, List.length_cons, List.length_nil]
  omega

/-- `PasskeyiOS.urlB64toStdB64`: map the url-safe alphabet to the standard
one, then pad with '=' until the length is a multiple of 4. -/
def urlB64toStdB64 (s : String) : String :=
  ⟨padLoop (s.data.map replStd)⟩

/-- The final replace of `PasskeyiOS.stdB64toUrlB64`: drop the trailing run
of '=' characters. -/
def dropTrailingEq (l : List Char) : List Char :=
  (l.reverse.dropWhile (fun c => c == '=')).reverse

/-- `PasskeyiOS.stdB64toUrlB64`: map the standard alphabet to the url-safe
one, then strip the trailing '=' padding. -/
def stdB64toUrlB64 (s : String) : String :=
  ⟨dropTrailingEq (s.data.map replUrl)⟩

/-- A character of the unpadded url-safe base64 alphabet. -/
def isUrlB64Char (c : Char) : Prop :=
  c.isAlphanum = true ∨ c = '-' ∨ c = '_'

instance (c : Char) : Decidable (isUrlB64Char c) := by
  unfold isUrlB64Char
  infer_instance

/-- The data extracted from an attestation request for the native iOS call
(interface PasskeyiOSRegistrationData in PasskeyiOS.tsx). -/
structure PasskeyiOSRegistrationData where
  rpId : String
  challenge : String
  name : String
  userID : String
  deriving DecidableEq

/-- The response payload of a native iOS registration result
(PasskeyiOS.tsx). -/
structure PasskeyiOSRegistrationResponse where
  rawAttestationObject : String
  rawClientDataJSON : String
  deriving DecidableEq

/-- A native iOS registration result (interface PasskeyiOSRegistrationResult
in PasskeyiOS.tsx). -/
structure PasskeyiOSRegistrationResult where
  credentialID : String
  response : PasskeyiOSRegistrationResponse
  deriving DecidableEq

/-- The response payload of a native iOS authentication result
(PasskeyiOS.tsx). -/
structure PasskeyiOSAuthenticationResponse where
  rawAuthenticatorData : String
  rawClientDataJSON : String
  signature : String
  deriving DecidableEq

/-- A native iOS authentication result (interface
PasskeyiOSAuthenticationResult in PasskeyiOS.tsx). -/
structure PasskeyiOSAuthenticationResult where
  credentialID : String
  userID : String
  response : PasskeyiOSAuthenticationResponse
  deriving DecidableEq

/-- Modelled from the spec: the response payload of the FIDO2 attestation
result (Passkey.ts is not among the sources). -/
structure PasskeyRegistrationResponse where
  clientDataJSON : String
  attestationObject : String
  deriving DecidableEq

/-- Modelled from the spec: the FIDO2 attestation result shape
(PasskeyRegistrationResult from Passkey.ts, not among the sources):
credential id, duplicated raw id, type constant, response payload. -/
structure PasskeyRegistrationResult where
  id : String
  rawId : String
  type : String
  response : PasskeyRegistrationResponse
  deriving DecidableEq

/-- Modelled from the spec: the response payload of the FIDO2 assertion
result (Passkey.ts is not among the sources). -/
structure PasskeyAuthenticationResponse where
  clientDataJSON : String
  authenticatorData : String
  signature : String
  userHandle : String
  deriving DecidableEq

/-- Modelled from the spec: the FIDO2 assertion result shape
(PasskeyAuthenticationResult from Passkey.ts, not among the sources). -/
structure PasskeyAuthenticationResult where
  id : String
  rawId : String
  type : String
  response : PasskeyAuthenticationResponse
  deriving DecidableEq

/-- Modelled from the spec: the relying party entity of a registration
request (Passkey.ts is not among the sources): id and name. -/
structure PasskeyRp where
  id : String
  name : String
  deriving DecidableEq

/-- Modelled from the spec: the user entity of a registration request:
user id, user name, user display name. -/
structure PasskeyUser where
  id : String
  name : String
  displayName : String
  deriving DecidableEq

/-- Modelled from the spec: the FIDO2 attestation request: relying party,
user, challenge, plus the algorithm and attestation preferences kept
opaque. -/
structure PasskeyRegistrationRequest where
  rp : PasskeyRp
  user : PasskeyUser
  challenge : String
  prefs : String
  deriving DecidableEq

/-- Modelled from the spec: the FIDO2 assertion request: relying-party id,
challenge, allowed credential ids. -/
structure PasskeyAuthenticationRequest where
  rpId : String
  challenge : String
  allowCredentials : List String
  deriving DecidableEq

/-- Modelled from the spec: the platform-specific error value raised by the
native bridge, a code and message pair. -/
structure NativeError where
  code : String
  message : String
  deriving DecidableEq

/-- Modelled from the spec: the closed error taxonomy of the classifier:
user cancellation, not supported on device, request invalid, native
platform failure, unknown. -/
inductive PasskeyErrorKind where
  | userCancelled
  | notSupported
  | requestInvalid
  | nativeFailure
  | unknownFailure
  deriving DecidableEq

/-- Modelled from the spec: a classified error, one enumerated kind plus the
underlying message. -/
structure PasskeyError where
  kind : PasskeyErrorKind
  message : String
  deriving DecidableEq

/-- Modelled from the spec: `handleNativeError` from PasskeyError.ts, which
is not among the sources. It maps whatever error value the native bridge
raised into one member of the closed enumeration, keeping the underlying
message; an unrecognised code maps to the unknown kind, so the raw native
shape never escapes. -/
def handleNativeError (e : NativeError) : PasskeyError :=
  if e.code = "UserCancelled" then ⟨PasskeyErrorKind.userCancelled, e.message⟩
  else if e.code = "NotSupported" then ⟨PasskeyErrorKind.notSupported, e.message⟩
  else if e.code = "RequestFailed" then ⟨PasskeyErrorKind.requestInvalid, e.message⟩
  else if e.code = "NativeError" then ⟨PasskeyErrorKind.nativeFailure, e.message⟩
  else ⟨PasskeyErrorKind.unknownFailure, e.message⟩

/-- `PasskeyiOS.prepareRegistrationRequest`: extract relying-party id,
re-encoded challenge, display name and user id from the request. -/
def PasskeyiOS.prepareRegistrationRequest
    (request : PasskeyRegistrationRequest) : PasskeyiOSRegistrationData :=
  { rpId := request.rp.id,
    challenge := urlB64toStdB64 request.challenge,
    name := request.user.displayName,
    userID := request.user.id }

/-- `PasskeyiOS.handleNativeRegistrationResult`: re-encode each native field
to url-safe base64 and assemble the FIDO2 attestation result. -/
def PasskeyiOS.handleNativeRegistrationResult
    (result : PasskeyiOSRegistrationResult) : PasskeyRegistrationResult :=
  { id := stdB64toUrlB64 result.credentialID,
    rawId := stdB64toUrlB64 result.credentialID,
    type := "public-key",
    response :=
      { clientDataJSON := stdB64toUrlB64 result.response.rawClientDataJSON,
        attestationObject := stdB64toUrlB64 result.response.rawAttestationObject } }

/-- `PasskeyiOS.handleNativeAuthenticationResult`: re-encode each native
field to url-safe base64 and assemble the FIDO2 assertion result. -/
def PasskeyiOS.handleNativeAuthenticationResult
    (result : PasskeyiOSAuthenticationResult) : PasskeyAuthenticationResult :=
  { id := stdB64toUrlB64 result.credentialID,
    rawId := stdB64toUrlB64 result.credentialID,
    type := "public-key",
    response :=
      { clientDataJSON := stdB64toUrlB64 result.response.rawClientDataJSON,
        authenticatorData := stdB64toUrlB64 result.response.rawAuthenticatorData,
        signature := stdB64toUrlB64 result.response.signature,
        userHandle := stdB64toUrlB64 result.userID } }

/-- `PasskeyiOS.register`, with the opaque native capability passed as a
function (NativePasskey.ts is not among the sources; the spec treats it as
a black box from relying-party id, challenge, name, user id and the
security-key flag to a native result or a native error). -/
def PasskeyiOS.register
    (native : String → String → String → String → Bool →
      Except NativeError PasskeyiOSRegistrationResult)
    (request : PasskeyRegistrationRequest) (withSecurityKey : Bool) :
    Except PasskeyError PasskeyRegistrationResult :=
  let d := PasskeyiOS.prepareRegistrationRequest request
  match native d.rpId d.challenge d.name d.userID withSecurityKey with
  | Except.ok response => Except.ok (PasskeyiOS.handleNativeRegistrationResult response)
  | Except.error e => Except.error (handleNativeError e)

/-- `PasskeyiOS.authenticate`, with the opaque native capability passed as a
function. -/
def PasskeyiOS.authenticate
    (native : String → String → Bool →
      Except NativeError PasskeyiOSAuthenticationResult)
    (request : PasskeyAuthenticationRequest) (withSecurityKey : Bool) :
    Except PasskeyError PasskeyAuthenticationResult :=
  match native request.rpId (urlB64toStdB64 request.challenge) withSecurityKey with
  | Except.ok response => Except.ok (PasskeyiOS.handleNativeAuthenticationResult response)
  | Except.error e => Except.error (handleNativeError e)

/-- An Android-side JSON request object: the challenge field plus the other
fields kept opaque as key and value pairs; the object spread in the source
preserves them. -/
structure AndroidRequest where
  challenge : String
  rest : List (String × String)
  deriving DecidableEq

/-- A parsed Android native response: the fields the adapter touches plus
the other fields kept opaque; the object spread in the source preserves
them. -/
structure AndroidNativeResponse where
  id : String
  rawId : String
  type : String
  rest : List (String × String)
  deriving DecidableEq

/-- `PasskeyAndroid.prepareRequest`: rewrite the challenge from standard to
url-safe unpadded base64 and spread the rest of the request unchanged. -/
def PasskeyAndroid.prepareRequest (request : AndroidRequest) : AndroidRequest :=
  { request with
    challenge := ⟨dropTrailingEq (request.challenge.data.map replUrl)⟩ }

/-- `PasskeyAndroid.handleNativeResponse`: spread the response as is and
overwrite id with the response id and rawId with the response id. -/
def PasskeyAndroid.handleNativeResponse
    (response : AndroidNativeResponse) : AndroidNativeResponse :=
  { response with id := response.id, rawId := response.id }

/-- `PasskeyAndroid.register`, with the opaque native capability passed as a
function; the JSON stringify and parse round trip at the boundary is
modelled as the identity on the object shapes. -/
def PasskeyAndroid.register
    (native : AndroidRequest → Except NativeError AndroidNativeResponse)
    (request : AndroidRequest) : Except PasskeyError AndroidNativeResponse :=
  match native (PasskeyAndroid.prepareRequest request) with
  | Except.ok response => Except.ok (PasskeyAndroid.handleNativeResponse response)
  | Except.error e => Except.error (handleNativeError e)

/-- `PasskeyAndroid.authenticate`, with the opaque native capability passed
as a function; same shape as registration. -/
def PasskeyAndroid.authenticate
    (native : AndroidRequest → Except NativeError AndroidNativeResponse)
    (request : AndroidRequest) : Except PasskeyError AndroidNativeResponse :=
  match native (PasskeyAndroid.prepareRequest request) with
  | Except.ok response => Except.ok (PasskeyAndroid.handleNativeResponse response)
  | Except.error e => Except.error (handleNativeError e)

/-! Helper lemmas about the codec. -/

/-- Closed form of the padding loop: it appends exactly as many '='
characters as are needed to reach the next multiple-of-4 length. -/
theorem padLoop_eq (s : List Char) :
    padLoop s = s ++ List.replicate ((4 - s.length % 4) % 4) '=' := by
  rw [padLoop]
  by_cases h : s.length % 4 = 0
  · simp [h]
  · rw [dif_neg h, padLoop_eq (s ++ ['='])]
    rw [List.append_assoc]
    congr 1
    simp only [List.length_append, List.length_cons, List.length_nil]
    have h2 : (4 - s.length % 4) % 4 = ((4 - (s.length + 1) % 4) % 4) + 1 := by omega
    rw [h2, List.replicate_succ]
    rfl
termination_by (4 - s.length % 4) % 4
decreasing_by
  simp only [List.length_append, List.length_cons, List.length_nil]
  omega

/-- Mapping to the standard alphabet and back is the identity on url-safe
base64 characters. -/
theorem replUrl_replStd_of_urlChar (c : Char) (h : isUrlB64Char c) :
    replUrl (replStd c) = c := by
  rcases h with h | rfl | rfl
  · have hm : c ≠ '-' := by rintro rfl; exact absurd h (by decide)
    have hu : c ≠ '_' := by rintro rfl; exact absurd h (by decide)
    have hp : c ≠ '+' := by rintro rfl; exact absurd h (by decide)
    have hs : c ≠ '/' := by rintro rfl; exact absurd h (by decide)
    simp [replStd, replUrl, hm, hu, hp, hs]
  · decide
  · decide

/-- A url-safe base64 character is not the padding character. -/
theorem urlChar_ne_eq (c : Char) (h : isUrlB64Char c) : c ≠ '=' := by
  rcases h with h | rfl | rfl
  · rintro rfl; exact absurd h (by decide)
  · decide
  · decide

/-- A pointwise-identity map leaves a character list unchanged. -/
theorem map_id_of_mem {f : Char → Char} :
    ∀ l : List Char, (∀ c ∈ l, f c = c) → l.map f = l
  | [], _ => rfl
  | c :: t, h => by
    rw [List.map_cons, h c (List.mem_cons_self c t),
      map_id_of_mem t (fun d hd => h d (List.mem_cons_of_mem c hd))]

/-- Dropping while a predicate holds skips over a replicated prefix that
satisfies it. -/
theorem dropWhile_replicate_append (p : Char → Bool) (a : Char)
    (hp : p a = true) (k : Nat) (ys : List Char) :
    (List.replicate k a ++ ys).dropWhile p = ys.dropWhile p := by
  induction k with
  | zero => rfl
  | succ n ih =>
    rw [List.replicate_succ, List.cons_append, List.dropWhile_cons]
    simp [hp, ih]

/-- Dropping while a predicate holds is the identity when no element
satisfies it. -/
theorem dropWhile_eq_self_of (p : Char → Bool) :
    ∀ l : List Char, (∀ c ∈ l, p c = false) → l.dropWhile p = l
  | [], _ => rfl
  | c :: t, h => by
    rw [List.dropWhile_cons, h c (List.mem_cons_self c t)]
    simp

/-- Stripping the trailing '=' run removes exactly the appended padding when
the original list contains no '=' characters. -/
theorem dropTrailingEq_append_replicate (l : List Char) (k : Nat)
    (h : ∀ c ∈ l, c ≠ '=') :
    dropTrailingEq (l ++ List.replicate k '=') = l := by
  unfold dropTrailingEq
  rw [List.reverse_append, List.reverse_replicate,
    dropWhile_replicate_append _ '=' (by decide),
    dropWhile_eq_self_of _ l.reverse
      (fun c hc => by
        have hne := h c (List.mem_reverse.mp hc)
        simp [hne]),
    List.reverse_reverse]

/-! Claim theorems. -/

/-- C1: for every valid unpadded url-safe base64 string x, converting to the
standard alphabet with padding and back to the url-safe alphabet without
padding returns x unchanged. -/
theorem c1_urlsafe_b64_roundtrip (x : String)
    (h : ∀ c ∈ x.data, isUrlB64Char c) :
    stdB64toUrlB64 (urlB64toStdB64 x) = x := by
  apply String.ext
  show dropTrailingEq ((padLoop (x.data.map replStd)).map replUrl) = x.data
  rw [padLoop_eq, List.map_append, List.map_map, List.map_replicate]
  have hcomp : x.data.map (replUrl ∘ replStd) = x.data :=
    map_id_of_mem x.data (fun c hc => replUrl_replStd_of_urlChar c (h c hc))
  rw [hcomp]
  have hrep : replUrl '=' = '=' := by decide
  rw [hrep]
  exact dropTrailingEq_append_replicate x.data _ (fun c hc => urlChar_ne_eq c (h c hc))

/-- C1 witness: the round trip evaluated on the concrete url-safe base64
string Ab0-_ returns it unchanged. -/
theorem c1_urlsafe_b64_roundtrip_witness :
    (∀ c ∈ ("Ab0-_" : String).data, isUrlB64Char c) ∧
    stdB64toUrlB64 (urlB64toStdB64 "Ab0-_") = "Ab0-_" :=
  ⟨by decide, c1_urlsafe_b64_roundtrip "Ab0-_" (by decide)⟩

/-- C2 counterexample: the claim that both platforms always return type
public-key fails on the Android adapter, which spreads the parsed native
response without touching its type field: a successful register call whose
native response carries the type nope returns a result whose type is nope,
not public-key. -/
theorem c2_android_type_counterexample :
    PasskeyAndroid.register
      (fun _ => Except.ok ⟨"i", "r", "nope", []⟩) ⟨"c", []⟩ =
      Except.ok ⟨"i", "i", "nope", []⟩ ∧ ("nope" : String) ≠ "public-key" :=
  ⟨rfl, by decide⟩

/-- C2 (amended): every successful iOS register or authenticate call returns
a result whose type field is the literal public-key; the Android adapter
leaves the type field of the parsed native response unchanged, so its result
type is public-key exactly when the native response already carried it. -/
theorem c2_result_type_amended :
    (∀ native request w result,
      PasskeyiOS.register native request w = Except.ok result →
      result.type = "public-key") ∧
    (∀ native request w result,
      PasskeyiOS.authenticate native request w = Except.ok result →
      result.type = "public-key") ∧
    (∀ response : AndroidNativeResponse,
      (PasskeyAndroid.handleNativeResponse response).type = response.type) ∧
    (∀ native request response,
      native (PasskeyAndroid.prepareRequest request) = Except.ok response →
      PasskeyAndroid.register native request =
        Except.ok (PasskeyAndroid.handleNativeResponse response)) ∧
    (∀ native request response,
      native (PasskeyAndroid.prepareRequest request) = Except.ok response →
      PasskeyAndroid.authenticate native request =
        Except.ok (PasskeyAndroid.handleNativeResponse response)) := by
  refine ⟨?_, ?_, fun response => rfl, ?_, ?_⟩
  · intro native request w result h
    simp only [PasskeyiOS.register] at h
    split at h
    · cases h; rfl
    · cases h
  · intro native request w result h
    simp only [PasskeyiOS.authenticate] at h
    split at h
    · cases h; rfl
    · cases h
  · intro native request response h
    simp only [PasskeyAndroid.register]
    rw [h]
  · intro native request response h
    simp only [PasskeyAndroid.authenticate]
    rw [h]

/-- C2 witness: a concrete successful iOS registration returns the type
public-key. -/
theorem c2_result_type_amended_witness :
    (PasskeyiOS.handleNativeRegistrationResult ⟨"YQ==", ⟨"YQ==", "YQ=="⟩⟩).type
      = "public-key" :=
  c2_result_type_amended.1
    (fun _ _ _ _ _ => Except.ok ⟨"YQ==", ⟨"YQ==", "YQ=="⟩⟩)
    ⟨⟨"rp", "rpn"⟩, ⟨"uid", "uname", "udisp"⟩, "ch", "p"⟩ false
    (PasskeyiOS.handleNativeRegistrationResult ⟨"YQ==", ⟨"YQ==", "YQ=="⟩⟩) rfl

/-- C3 counterexample: on the challenge abc-_ the iOS adapter does not hand
the native layer the challenge abc+/= as claimed; the padding loop appends
three '=' characters, not one, since abc+/= has length 6 which is not a
multiple of 4. -/
theorem c3_ios_challenge_counterexample :
    (PasskeyiOS.prepareRegistrationRequest
      ⟨⟨"example.com", "Example"⟩, ⟨"user1", "uname", "User One"⟩, "abc-_", "p"⟩).challenge
      ≠ "abc+/=" := by
  show urlB64toStdB64 "abc-_" ≠ "abc+/="
  unfold urlB64toStdB64
  rw [padLoop_eq]
  decide

/-- C3 (amended): on a registration request whose challenge is abc-_ the iOS
adapter invokes the native capability with the challenge abc+/===, the
url-safe string converted to the standard alphabet and padded with '=' to
the next multiple-of-4 length, which is 8. -/
theorem c3_ios_challenge_amended :
    (PasskeyiOS.prepareRegistrationRequest
      ⟨⟨"example.com", "Example"⟩, ⟨"user1", "uname", "User One"⟩, "abc-_", "p"⟩).challenge
      = "abc+/===" ∧ urlB64toStdB64 "abc-_" = "abc+/===" := by
  have h : urlB64toStdB64 "abc-_" = "abc+/===" := by
    unfold urlB64toStdB64
    rw [padLoop_eq]
    decide
  exact ⟨h, h⟩

/-- C4: the iOS registration handler sets id and rawId to the url-safe
unpadded re-encoding of the native credentialID and re-encodes the raw
client data JSON and raw attestation object; in particular the credentialID
ZGVmZw== yields id and rawId ZGVmZw. -/
theorem c4_ios_registration_reencoding :
    (∀ r : PasskeyiOSRegistrationResult,
      (PasskeyiOS.handleNativeRegistrationResult r).id = stdB64toUrlB64 r.credentialID ∧
      (PasskeyiOS.handleNativeRegistrationResult r).rawId = stdB64toUrlB64 r.credentialID ∧
      (PasskeyiOS.handleNativeRegistrationResult r).type = "public-key" ∧
      (PasskeyiOS.handleNativeRegistrationResult r).response.clientDataJSON =
        stdB64toUrlB64 r.response.rawClientDataJSON ∧
      (PasskeyiOS.handleNativeRegistrationResult r).response.attestationObject =
        stdB64toUrlB64 r.response.rawAttestationObject) ∧
    (PasskeyiOS.handleNativeRegistrationResult ⟨"ZGVmZw==", ⟨"att", "cdj"⟩⟩).id = "ZGVmZw" ∧
    (PasskeyiOS.handleNativeRegistrationResult ⟨"ZGVmZw==", ⟨"att", "cdj"⟩⟩).rawId = "ZGVmZw" :=
  ⟨fun r => ⟨rfl, rfl, rfl, rfl, rfl⟩, by decide, by decide⟩

/-- C5: the Android prepareRequest rewrites only the challenge field, from
standard to url-safe unpadded base64, and leaves every other field
unchanged; in particular the challenge a+b/c= is dispatched as a-b_c with
the remaining fields identical. -/
theorem c5_android_prepare_frame :
    (∀ r : AndroidRequest,
      (PasskeyAndroid.prepareRequest r).challenge = stdB64toUrlB64 r.challenge ∧
      (PasskeyAndroid.prepareRequest r).rest = r.rest) ∧
    PasskeyAndroid.prepareRequest ⟨"a+b/c=", [("rp", "x"), ("user", "y")]⟩ =
      ⟨"a-b_c", [("rp", "x"), ("user", "y")]⟩ :=
  ⟨fun r => ⟨rfl, rfl⟩, by decide⟩

/-- C6: the Android response handler returns the parsed native response
spread as is except that rawId is forcibly set to the response id, so the
result always satisfies rawId equal to id. -/
theorem c6_android_rawid :
    ∀ response : AndroidNativeResponse,
      PasskeyAndroid.handleNativeResponse response =
        { response with rawId := response.id } ∧
      (PasskeyAndroid.handleNativeResponse response).rawId =
        (PasskeyAndroid.handleNativeResponse response).id :=
  fun response => ⟨rfl, rfl⟩

/-- C7: the iOS authentication handler sets id and rawId to the url-safe
unpadded re-encoding of the native credentialID and re-encodes the raw
client data JSON, raw authenticator data, signature and native userID into
the assertion response fields. -/
theorem c7_ios_authentication_reencoding :
    ∀ r : PasskeyiOSAuthenticationResult,
      (PasskeyiOS.handleNativeAuthenticationResult r).id = stdB64toUrlB64 r.credentialID ∧
      (PasskeyiOS.handleNativeAuthenticationResult r).rawId = stdB64toUrlB64 r.credentialID ∧
      (PasskeyiOS.handleNativeAuthenticationResult r).type = "public-key" ∧
      (PasskeyiOS.handleNativeAuthenticationResult r).response.clientDataJSON =
        stdB64toUrlB64 r.response.rawClientDataJSON ∧
      (PasskeyiOS.handleNativeAuthenticationResult r).response.authenticatorData =
        stdB64toUrlB64 r.response.rawAuthenticatorData ∧
      (PasskeyiOS.handleNativeAuthenticationResult r).response.signature =
        stdB64toUrlB64 r.response.signature ∧
      (PasskeyiOS.handleNativeAuthenticationResult r).response.userHandle =
        stdB64toUrlB64 r.userID :=
  fun r => ⟨rfl, rfl, rfl, rfl, rfl, rfl, rfl⟩

/-- C8: on every native failure, each of the four adapter entry points
returns exactly the classified error obtained by passing the native error
through the classifier, with no partial result; the caller never sees the
raw native error value. -/
theorem c8_error_classification :
    (∀ native request w e,
      native (PasskeyiOS.prepareRegistrationRequest request).rpId
        (PasskeyiOS.prepareRegistrationRequest request).challenge
        (PasskeyiOS.prepareRegistrationRequest request).name
        (PasskeyiOS.prepareRegistrationRequest request).userID w = Except.error e →
      PasskeyiOS.register native request w = Except.error (handleNativeError e)) ∧
    (∀ native request w e,
      native request.rpId (urlB64toStdB64 request.challenge) w = Except.error e →
      PasskeyiOS.authenticate native request w = Except.error (handleNativeError e)) ∧
    (∀ native request e,
      native (PasskeyAndroid.prepareRequest request) = Except.error e →
      PasskeyAndroid.register native request = Except.error (handleNativeError e)) ∧
    (∀ native request e,
      native (PasskeyAndroid.prepareRequest request) = Except.error e →
      PasskeyAndroid.authenticate native request = Except.error (handleNativeError e)) := by
  refine ⟨?_, ?_, ?_, ?_⟩
  · intro native request w e h
    simp only [PasskeyiOS.register]
    rw [h]
  · intro native request w e h
    simp only [PasskeyiOS.authenticate]
    rw [h]
  · intro native request e h
    simp only [PasskeyAndroid.register]
    rw [h]
  · intro native request e h
    simp only [PasskeyAndroid.authenticate]
    rw [h]

/-- C8 witness: a concrete iOS registration whose native layer raises a user
cancellation error returns exactly the classified error. -/
theorem c8_error_classification_witness :
    PasskeyiOS.register (fun _ _ _ _ _ => Except.error ⟨"UserCancelled", "m"⟩)
      ⟨⟨"rp", "rpn"⟩, ⟨"uid", "uname", "udisp"⟩, "ch", "p"⟩ false =
      Except.error (handleNativeError ⟨"UserCancelled", "m"⟩) :=
  c8_error_classification.1 (fun _ _ _ _ _ => Except.error ⟨"UserCancelled", "m"⟩)
    ⟨⟨"rp", "rpn"⟩, ⟨"uid", "uname", "udisp"⟩, "ch", "p"⟩ false
    ⟨"UserCancelled", "m"⟩ rfl

/-- C9: two registration requests that agree on relying-party id, challenge,
user display name and user id produce the identical prepared native data and
the identical iOS register outcome, so the rp name and user name fields are
ignored by the iOS adapter. -/
theorem c9_ios_ignores_names
    (native : String → String → String → String → Bool →
      Except NativeError PasskeyiOSRegistrationResult)
    (r1 r2 : PasskeyRegistrationRequest) (w : Bool)
    (h1 : r1.rp.id = r2.rp.id) (h2 : r1.challenge = r2.challenge)
    (h3 : r1.user.displayName = r2.user.displayName) (h4 : r1.user.id = r2.user.id) :
    PasskeyiOS.prepareRegistrationRequest r1 = PasskeyiOS.prepareRegistrationRequest r2 ∧
    PasskeyiOS.register native r1 w = PasskeyiOS.register native r2 w := by
  have hp : PasskeyiOS.prepareRegistrationRequest r1 =
      PasskeyiOS.prepareRegistrationRequest r2 := by
    simp only [PasskeyiOS.prepareRegistrationRequest, h1, h2, h3, h4]
  exact ⟨hp, by simp only [PasskeyiOS.register, hp]⟩

/-- C9 witness: two concrete requests differing only in the rp name and the
user name give the same prepared data and the same register outcome. -/
theorem c9_ios_ignores_names_witness :
    PasskeyiOS.prepareRegistrationRequest
      ⟨⟨"example.com", "Name A"⟩, ⟨"u1", "nameA", "Disp"⟩, "ch", "p"⟩ =
      PasskeyiOS.prepareRegistrationRequest
        ⟨⟨"example.com", "Name B"⟩, ⟨"u1", "nameB", "Disp"⟩, "ch", "p"⟩ ∧
    PasskeyiOS.register (fun _ _ _ _ _ => Except.error ⟨"UserCancelled", "m"⟩)
      ⟨⟨"example.com", "Name A"⟩, ⟨"u1", "nameA", "Disp"⟩, "ch", "p"⟩ false =
      PasskeyiOS.register (fun _ _ _ _ _ => Except.error ⟨"UserCancelled", "m"⟩)
        ⟨⟨"example.com", "Name B"⟩, ⟨"u1", "nameB", "Disp"⟩, "ch", "p"⟩ false :=
  c9_ios_ignores_names (fun _ _ _ _ _ => Except.error ⟨"UserCancelled", "m"⟩)
    ⟨⟨"example.com", "Name A"⟩, ⟨"u1", "nameA", "Disp"⟩, "ch", "p"⟩
    ⟨⟨"example.com", "Name B"⟩, ⟨"u1", "nameB", "Disp"⟩, "ch", "p"⟩ false
    rfl rfl rfl rfl

/-- C10: on every input string the padding loop of urlB64toStdB64 terminates
after appending at most 3 '=' characters, and the returned string always has
a length that is a multiple of 4. -/
theorem c10_padding_bound (s : String) :
    (urlB64toStdB64 s).length % 4 = 0 ∧
    ∃ k, k ≤ 3 ∧ (urlB64toStdB64 s).data = s.data.map replStd ++ List.replicate k '=' := by
  have hd : (urlB64toStdB64 s).data =
      s.data.map replStd ++
        List.replicate ((4 - (s.data.map replStd).length % 4) % 4) '=' := padLoop_eq _
  constructor
  · have hl : (urlB64toStdB64 s).length = (urlB64toStdB64 s).data.length := rfl
    rw [hl, hd]
    simp only [List.length_append, List.length_map, List.length_replicate]
    omega
  · exact ⟨_, by omega, hd⟩
